import Mathlib

/-!
Verification of the web layer of a synthetic-user-data generator.

The repository has two Python source files:

* `app.py` — a Flask app with three routes; the claims concern the
  `POST /api/generate` handler `api_generate` and the `GET /health`
  handler `health`.
* `benchmark.py` — a standalone driver `run_benchmark` that times calls
  of the stored procedure for a list of batch sizes.

Shallow embedding choices:

* JSON/Python values occurring in requests and user records are modelled
  by `PyVal` (integers, floats as exact rationals, strings, and `None`).
  Request bodies and user records are key-unique association lists
  `List (String × PyVal)`.
* Python exceptions are modelled by `Except String`: the `String` is the
  result of `str(e)` on the raised exception.
* The database is external to this code.  The stored-procedure call made
  by `generate_users` is an oracle parameter
  `gen : PyVal → ℤ → ℤ → ℤ → Except String (List PyUser)`; a database
  failure is the oracle returning `Except.error`.  A handler result that
  is equal for every oracle is a result produced without any database
  interaction.
* Wall-clock time (`time.time()`) is an oracle `clock : ℕ → ℚ` giving the
  successive readings taken during a benchmark run.
* `float` arithmetic is modelled exactly over `ℚ`; Python's `round(x, 6)`
  (round-half-to-even at the sixth decimal) is `round6`.
-/

/-- A JSON/Python value as it occurs in a request body or a generated
user record: an integer, a float (modelled as an exact rational), a
string, or `None`. -/
inductive PyVal where
  | vint (n : ℤ)
  | vfloat (q : ℚ)
  | vstr (s : String)
  | vnull
  deriving DecidableEq

/-- A generated user record: a key-unique association list of field
names to values, as returned by the `RealDictCursor`. -/
abbrev PyUser := List (String × PyVal)

/-- First-match lookup in an association list (dictionaries are
key-unique, so the first match is the only one). -/
def pyLookup (k : String) : List (String × PyVal) → Option PyVal
  | [] => none
  | (k2, v) :: rest => if k2 = k then v else pyLookup k rest

/-- `d.get(k, dflt)` on a Python dictionary. -/
def pyGet (d : List (String × PyVal)) (k : String) (dflt : PyVal) : PyVal :=
  match pyLookup k d with
  | some v => v
  | none => dflt

/-- `d[k] = v` on a dictionary in which `k` is already present: the
binding of `k` is replaced in place (dictionaries are key-unique, so at
most one binding matches). -/
def setKey : List (String × PyVal) → String → PyVal → List (String × PyVal)
  | [], _, _ => []
  | (k2, v2) :: rest, k, v =>
    if k2 = k then (k, v) :: setKey rest k v
    else (k2, v2) :: setKey rest k v

/-- ASCII whitespace stripped by Python's `int()` around a string
argument. -/
def isPySpace (c : Char) : Bool := c = ' ' || c = '\t' || c = '\n' || c = '\r'

/-- Accumulator loop reading a run of decimal digits. -/
def digitsAux : List Char → ℕ → Option ℕ
  | [], acc => some acc
  | c :: rest, acc =>
    if '0' ≤ c ∧ c ≤ '9' then digitsAux rest (acc * 10 + (c.toNat - 48))
    else none

/-- Python's `int(s)` on a string: strip surrounding whitespace, accept
an optional sign followed by a nonempty digit run, reject anything
else. -/
def strToInt (s : String) : Option ℤ :=
  let cs := ((s.toList.dropWhile isPySpace).reverse.dropWhile isPySpace).reverse
  match cs with
  | [] => none
  | '-' :: rest =>
    match rest with
    | [] => none
    | _ => (digitsAux rest 0).map (fun n => -(n : ℤ))
  | '+' :: rest =>
    match rest with
    | [] => none
    | _ => (digitsAux rest 0).map (fun n => (n : ℤ))
  | _ => (digitsAux cs 0).map (fun n => (n : ℤ))

/-- Python's `int(x)` applied to a JSON value: an integer is returned
as-is, a float is truncated toward zero, a string is parsed as a decimal
integer literal (raising `ValueError` if it is not one), and `None`
raises `TypeError`.  The raised exception's `str` is the error value. -/
def pyInt : PyVal → Except String ℤ
  | .vint n => .ok n
  | .vfloat q => .ok (if 0 ≤ q then ⌊q⌋ else ⌈q⌉)
  | .vstr s =>
      match strToInt s with
      | some n => .ok n
      | none => .error ("invalid literal for int() with base 10: \x27" ++ s ++ "\x27")
  | .vnull => .error "int() argument must be a string, a bytes-like object or a real number, not \x27NoneType\x27"

/-- Round a rational to the nearest integer, ties to even: the rounding
mode of Python's `round`. -/
def roundHalfEven (q : ℚ) : ℤ :=
  if q - ⌊q⌋ < 1/2 then ⌊q⌋
  else if 1/2 < q - ⌊q⌋ then ⌊q⌋ + 1
  else if ⌊q⌋ % 2 = 0 then ⌊q⌋ else ⌊q⌋ + 1

/-- Python's `round(q, 6)` on a float, modelled exactly over `ℚ`. -/
def round6 (q : ℚ) : ℚ := (roundHalfEven (q * 1000000) : ℚ) / 1000000

/-- Python's `round(v, 6)` on an arbitrary value: an int is returned
unchanged, a float is rounded, and a non-numeric value raises
`TypeError`. -/
def pyRound6 : PyVal → Except String PyVal
  | .vint n => .ok (.vint n)
  | .vfloat q => .ok (.vfloat (round6 q))
  | .vstr _ => .error "type str doesn\x27t define __round__ method"
  | .vnull => .error "type NoneType doesn\x27t define __round__ method"

/-- One iteration of the coordinate-formatting loop of `api_generate`
(`app.py` lines 68-70): `user[\x27latitude\x27] = round(user[\x27latitude\x27], 6)`
then the same for `longitude`.  A missing key raises `KeyError` (whose
`str` is the quoted key), a non-numeric value raises `TypeError`. -/
def roundUser (u : PyUser) : Except String PyUser :=
  match pyLookup "latitude" u with
  | none => .error "\x27latitude\x27"
  | some lat =>
    match pyRound6 lat with
    | .error e => .error e
    | .ok lat2 =>
      let u1 := setKey u "latitude" lat2
      match pyLookup "longitude" u1 with
      | none => .error "\x27longitude\x27"
      | some lon =>
        match pyRound6 lon with
        | .error e => .error e
        | .ok lon2 => .ok (setKey u1 "longitude" lon2)

/-- The whole `for user in users` loop: the first exception aborts the
request (partial in-place mutations are never observed, since the
response is not built). -/
def roundAll : List PyUser → Except String (List PyUser)
  | [] => .ok []
  | u :: rest =>
    match roundUser u with
    | .error e => .error e
    | .ok u2 =>
      match roundAll rest with
      | .error e => .error e
      | .ok rest2 => .ok (u2 :: rest2)

/-- An HTTP response of the `/api/generate` endpoint: the 200 success
body (`users`, echoed `locale`, `seed`, `batch_index`, `batch_size`,
`timestamp`), a 400 body `{error: msg}` from validation, or the 500
body `{error: str(e)}` from the catch-all handler. -/
inductive Resp where
  | success (users : List PyUser) (locale : PyVal)
      (seed batch_index batch_size : ℤ) (timestamp : String)
  | clientError (error : String)
  | serverError (error : String)
  deriving DecidableEq

/-- HTTP status code of a response. -/
def Resp.statusCode : Resp → ℕ
  | .success _ _ _ _ _ _ => 200
  | .clientError _ => 400
  | .serverError _ => 500

/-- The 400 message for an out-of-range batch size (`app.py` line 60). -/
def batchSizeMsg : String := "Batch size must be between 1 and 100"

/-- The 400 message for an out-of-range seed (`app.py` line 63). -/
def seedMsg : String := "Seed must be between 0 and 2147483647"

/-- The type of the stored-procedure oracle standing for
`generate_users` (`app.py` lines 27-40): given locale, seed, batch
index and batch size it either raises (database failure) or returns the
generated user rows. -/
abbrev GenOracle := PyVal → ℤ → ℤ → ℤ → Except String (List PyUser)

/-- The body of the `try:` block of `api_generate` (`app.py` lines
52-79): parameter extraction with defaults, `int()` conversion, the two
range validations (which `return` 400 responses, they do not raise),
the stored-procedure call, the rounding loop, and the 200 response.
`Except.error e` is an exception escaping the block with `str(e) = e`. -/
def tryBody (gen : GenOracle) (now : String)
    (data : List (String × PyVal)) : Except String Resp :=
  let locale := pyGet data "locale" (.vstr "en_US")
  match pyInt (pyGet data "seed" (.vint 12345)) with
  | .error e => .error e
  | .ok seed =>
    match pyInt (pyGet data "batch_index" (.vint 0)) with
    | .error e => .error e
    | .ok batch_index =>
      match pyInt (pyGet data "batch_size" (.vint 10)) with
      | .error e => .error e
      | .ok batch_size =>
        if batch_size < 1 ∨ batch_size > 100 then
          .ok (.clientError batchSizeMsg)
        else if seed < 0 ∨ seed > 2147483647 then
          .ok (.clientError seedMsg)
        else
          match gen locale seed batch_index batch_size with
          | .error e => .error e
          | .ok users =>
            match roundAll users with
            | .error e => .error e
            | .ok users2 =>
              .ok (.success users2 locale seed batch_index batch_size now)

/-- The `POST /api/generate` handler (`app.py` lines 48-82): the `try:`
body, with any escaping exception turned into a 500 response whose
`error` field is the exception's string representation.  `now` is the
ISO 8601 timestamp `datetime.now().isoformat()` takes at response
construction; `data` is the parsed JSON request body. -/
def api_generate (gen : GenOracle) (now : String)
    (data : List (String × PyVal)) : Resp :=
  match tryBody gen now data with
  | .ok r => r
  | .error e => .serverError e

/-- A response of the `GET /health` endpoint: the 200 body
`{status: "healthy", database: "connected"}` or the 500 body
`{status: "unhealthy", error: str(e)}`. -/
inductive HealthResp where
  | healthy
  | unhealthy (error : String)
  deriving DecidableEq

/-- HTTP status code of a health response. -/
def HealthResp.statusCode : HealthResp → ℕ
  | .healthy => 200
  | .unhealthy _ => 500

/-- Oracle for the two database interactions of the health check:
`connect` stands for `get_db_connection()` (`app.py` lines 9-15),
`selectOne` for creating a cursor, executing `SELECT 1` and closing
(`app.py` lines 89-92). -/
structure HealthEnv where
  connect : Except String Unit
  selectOne : Except String Unit

/-- The `GET /health` handler (`app.py` lines 84-95): connect, run
`SELECT 1`; report healthy on success and unhealthy with the
exception's message on any failure. -/
def health (env : HealthEnv) : HealthResp :=
  match env.connect with
  | .error e => .unhealthy e
  | .ok _ =>
    match env.selectOne with
    | .error e => .unhealthy e
    | .ok _ => .healthy

/-- Python's float division `a / b`: raises `ZeroDivisionError` when
`b == 0`. -/
def pyDiv (a b : ℚ) : Except String ℚ :=
  if b = 0 then .error "float division by zero" else .ok (a / b)

/-- The loop of `run_benchmark` (`benchmark.py` lines 12-27).  `ex` is
the oracle for `cur.execute("SELECT generate_fake_users(%s, %s, %s)")`
followed by `conn.commit()` at the given `(locale, seed, count)`;
`clock` gives the successive `time.time()` readings, two per iteration
(index `t` at the start of the call, `t + 1` after the commit).  Each
iteration appends `(count, elapsed, throughput)` with
`throughput = count / elapsed`. -/
def benchLoop (ex : String → ℤ → ℕ → Except String Unit) (clock : ℕ → ℚ)
    (locale : String) (seed : ℤ) :
    List ℕ → ℕ → Except String (List (ℕ × ℚ × ℚ))
  | [], _ => .ok []
  | count :: rest, t =>
    match ex locale seed count with
    | .error e => .error e
    | .ok _ =>
      let elapsed := clock (t + 1) - clock t
      match pyDiv (count : ℚ) elapsed with
      | .error e => .error e
      | .ok throughput =>
        match benchLoop ex clock locale seed rest (t + 2) with
        | .error e => .error e
        | .ok rest2 => .ok ((count, elapsed, throughput) :: rest2)

/-- `run_benchmark(user_counts, locale, seed)` (`benchmark.py` lines
8-29): open one shared connection (`connect`; a failure propagates),
then run the timing loop over `user_counts` in order, starting with
clock reading 0, and return the accumulated result list. -/
def run_benchmark (connect : Except String Unit)
    (ex : String → ℤ → ℕ → Except String Unit) (clock : ℕ → ℚ)
    (user_counts : List ℕ) (locale : String) (seed : ℤ) :
    Except String (List (ℕ × ℚ × ℚ)) :=
  match connect with
  | .error e => .error e
  | .ok _ => benchLoop ex clock locale seed user_counts 0

/-! ### Helper lemmas about dictionaries and the rounding loop -/

theorem pyLookup_setKey_self {d : List (String × PyVal)} {k : String}
    {v : PyVal} (w : PyVal) (h : pyLookup k d = some v) :
    pyLookup k (setKey d k w) = some w := by
  induction d with
  | nil => simp [pyLookup] at h
  | cons p rest ih =>
    obtain ⟨k1, v1⟩ := p
    by_cases hk : k1 = k
    · simp [pyLookup, setKey, hk]
    · simp only [pyLookup, if_neg hk] at h
      simp [pyLookup, setKey, hk, ih h]

theorem pyLookup_setKey_ne {d : List (String × PyVal)} {k k2 : String}
    (w : PyVal) (hne : k ≠ k2) :
    pyLookup k (setKey d k2 w) = pyLookup k d := by
  induction d with
  | nil => simp [setKey]
  | cons p rest ih =>
    obtain ⟨k1, v1⟩ := p
    by_cases hk : k1 = k2
    · have hkk : ¬(k2 = k) := fun h => hne h.symm
      subst hk
      simp [pyLookup, setKey, hkk, ih]
    · by_cases hk2 : k1 = k
      · simp [pyLookup, setKey, hk, hk2, hne]
      · simp [pyLookup, setKey, hk, hk2, ih]

theorem roundAll_length {l l2 : List PyUser} (h : roundAll l = .ok l2) :
    l2.length = l.length := by
  induction l generalizing l2 with
  | nil => simp [roundAll] at h; simp [← h]
  | cons u rest ih =>
    simp only [roundAll] at h
    cases hu : roundUser u with
    | error e => rw [hu] at h; exact absurd h (by simp)
    | ok u2 =>
      rw [hu] at h
      cases hr : roundAll rest with
      | error e => rw [hr] at h; exact absurd h (by simp)
      | ok rest2 =>
        rw [hr] at h
        cases h
        simp [ih hr]

theorem roundAll_get {l l2 : List PyUser} (h : roundAll l = .ok l2)
    (i : ℕ) (h1 : i < l.length) (h2 : i < l2.length) :
    roundUser (l.get ⟨i, h1⟩) = .ok (l2.get ⟨i, h2⟩) := by
  induction l generalizing l2 i with
  | nil => simp at h1
  | cons u rest ih =>
    simp only [roundAll] at h
    cases hu : roundUser u with
    | error e => rw [hu] at h; exact absurd h (by simp)
    | ok u2 =>
      rw [hu] at h
      cases hr : roundAll rest with
      | error e => rw [hr] at h; exact absurd h (by simp)
      | ok rest2 =>
        rw [hr] at h
        cases h
        cases i with
        | zero => simpa using hu
        | succ j =>
          simp only [List.get_cons_succ]
          exact ih hr j (Nat.lt_of_succ_lt_succ h1) (Nat.lt_of_succ_lt_succ h2)

theorem roundAll_error_of_mem {l : List PyUser} {u : PyUser} {e : String}
    (hmem : u ∈ l) (herr : roundUser u = .error e) :
    ∃ e2, roundAll l = .error e2 := by
  induction l with
  | nil => simp at hmem
  | cons v rest ih =>
    rcases List.mem_cons.mp hmem with h | h
    · subst h
      exact ⟨e, by simp [roundAll, herr]⟩
    · cases hv : roundUser v with
      | error e3 => exact ⟨e3, by simp [roundAll, hv]⟩
      | ok v2 =>
        rcases ih h with ⟨e2, h2⟩
        exact ⟨e2, by simp [roundAll, hv, h2]⟩

theorem roundUser_err_no_lat {u : PyUser}
    (h : pyLookup "latitude" u = none) :
    roundUser u = .error "\x27latitude\x27" := by
  simp [roundUser, h]

theorem roundUser_err_no_lon {u : PyUser}
    (h : pyLookup "longitude" u = none) :
    ∃ e, roundUser u = .error e := by
  cases hlat : pyLookup "latitude" u with
  | none => exact ⟨_, roundUser_err_no_lat hlat⟩
  | some lat =>
    cases hr : pyRound6 lat with
    | error e => exact ⟨e, by simp [roundUser, hlat, hr]⟩
    | ok lat2 =>
      have hlon : pyLookup "longitude" (setKey u "latitude" lat2) = none := by
        rw [pyLookup_setKey_ne lat2 (by decide)]
        exact h
      exact ⟨"\x27longitude\x27", by simp [roundUser, hlat, hr, hlon]⟩

theorem roundUser_latitude {u u2 : PyUser} {q : ℚ}
    (h : roundUser u = .ok u2)
    (hlat : pyLookup "latitude" u = some (.vfloat q)) :
    pyLookup "latitude" u2 = some (.vfloat (round6 q)) := by
  simp only [roundUser, hlat, pyRound6] at h
  split at h
  · exact absurd h (by simp)
  · split at h
    · exact absurd h (by simp)
    · cases h
      rw [pyLookup_setKey_ne _ (by decide)]
      exact pyLookup_setKey_self _ hlat

theorem roundUser_longitude {u u2 : PyUser} {q : ℚ}
    (h : roundUser u = .ok u2)
    (hlon : pyLookup "longitude" u = some (.vfloat q)) :
    pyLookup "longitude" u2 = some (.vfloat (round6 q)) := by
  cases hlat : pyLookup "latitude" u with
  | none => rw [roundUser_err_no_lat hlat] at h; exact absurd h (by simp)
  | some lat =>
    simp only [roundUser, hlat] at h
    split at h
    · exact absurd h (by simp)
    · rename_i lat2 hr
      have hlon1 : pyLookup "longitude" (setKey u "latitude" lat2) =
          some (.vfloat q) := by
        rw [pyLookup_setKey_ne lat2 (by decide)]
        exact hlon
      rw [hlon1] at h
      simp only [pyRound6] at h
      cases h
      exact pyLookup_setKey_self _ hlon1

/-! ### Characterization lemmas for the generate handler -/

theorem tryBody_seed_err {gen : GenOracle} {now : String}
    {data : List (String × PyVal)} {e : String}
    (hs : pyInt (pyGet data "seed" (.vint 12345)) = .error e) :
    tryBody gen now data = .error e := by
  simp [tryBody, hs]

theorem tryBody_batch_index_err {gen : GenOracle} {now : String}
    {data : List (String × PyVal)} {s : ℤ} {e : String}
    (hs : pyInt (pyGet data "seed" (.vint 12345)) = .ok s)
    (hbi : pyInt (pyGet data "batch_index" (.vint 0)) = .error e) :
    tryBody gen now data = .error e := by
  simp [tryBody, hs, hbi]

theorem tryBody_batch_size_err {gen : GenOracle} {now : String}
    {data : List (String × PyVal)} {s bi : ℤ} {e : String}
    (hs : pyInt (pyGet data "seed" (.vint 12345)) = .ok s)
    (hbi : pyInt (pyGet data "batch_index" (.vint 0)) = .ok bi)
    (hbs : pyInt (pyGet data "batch_size" (.vint 10)) = .error e) :
    tryBody gen now data = .error e := by
  simp [tryBody, hs, hbi, hbs]

theorem tryBody_400_batch {gen : GenOracle} {now : String}
    {data : List (String × PyVal)} {s bi bs : ℤ}
    (hs : pyInt (pyGet data "seed" (.vint 12345)) = .ok s)
    (hbi : pyInt (pyGet data "batch_index" (.vint 0)) = .ok bi)
    (hbs : pyInt (pyGet data "batch_size" (.vint 10)) = .ok bs)
    (hout : bs < 1 ∨ bs > 100) :
    tryBody gen now data = .ok (.clientError batchSizeMsg) := by
  simp [tryBody, hs, hbi, hbs, hout]

theorem tryBody_400_seed {gen : GenOracle} {now : String}
    {data : List (String × PyVal)} {s bi bs : ℤ}
    (hs : pyInt (pyGet data "seed" (.vint 12345)) = .ok s)
    (hbi : pyInt (pyGet data "batch_index" (.vint 0)) = .ok bi)
    (hbs : pyInt (pyGet data "batch_size" (.vint 10)) = .ok bs)
    (hin : ¬(bs < 1 ∨ bs > 100))
    (hout : s < 0 ∨ s > 2147483647) :
    tryBody gen now data = .ok (.clientError seedMsg) := by
  simp [tryBody, hs, hbi, hbs, hin, hout]

theorem tryBody_valid {gen : GenOracle} {now : String}
    {data : List (String × PyVal)} {s bi bs : ℤ}
    (hs : pyInt (pyGet data "seed" (.vint 12345)) = .ok s)
    (hbi : pyInt (pyGet data "batch_index" (.vint 0)) = .ok bi)
    (hbs : pyInt (pyGet data "batch_size" (.vint 10)) = .ok bs)
    (hbsin : ¬(bs < 1 ∨ bs > 100))
    (hsin : ¬(s < 0 ∨ s > 2147483647)) :
    tryBody gen now data =
      match gen (pyGet data "locale" (.vstr "en_US")) s bi bs with
      | .error e => .error e
      | .ok users =>
        match roundAll users with
        | .error e => .error e
        | .ok users2 =>
          .ok (.success users2 (pyGet data "locale" (.vstr "en_US")) s bi bs now) := by
  simp [tryBody, hs, hbi, hbs, hbsin, hsin]

/-! ### Characterization lemma for the benchmark loop -/

theorem benchLoop_ok (ex : String → ℤ → ℕ → Except String Unit)
    (clock : ℕ → ℚ) (locale : String) (seed : ℤ)
    (counts : List ℕ) (t : ℕ)
    (hex : ∀ c ∈ counts, ex locale seed c = .ok ())
    (hclock : StrictMono clock) :
    ∃ res, benchLoop ex clock locale seed counts t = .ok res ∧
      res.map (fun r => r.1) = counts ∧
      ∀ r ∈ res, 0 ≤ r.2.1 ∧ r.2.2 = (r.1 : ℚ) / r.2.1 := by
  induction counts generalizing t with
  | nil => exact ⟨[], rfl, rfl, by simp⟩
  | cons count rest ih =>
    have hexc : ex locale seed count = .ok () := hex count (by simp)
    have hpos : (0 : ℚ) < clock (t + 1) - clock t := by
      have := hclock (Nat.lt_succ_self t)
      linarith
    have hne : clock (t + 1) - clock t ≠ 0 := ne_of_gt hpos
    rcases ih (t + 2) (fun c hc => hex c (by simp [hc])) with
      ⟨res, hres, hmap, hall⟩
    refine ⟨(count, clock (t + 1) - clock t,
        (count : ℚ) / (clock (t + 1) - clock t)) :: res, ?_, ?_, ?_⟩
    · simp [benchLoop, hexc, pyDiv, hne, hres]
    · simp [hmap]
    · intro r hr
      rcases List.mem_cons.mp hr with h | h
      · subst h
        exact ⟨le_of_lt hpos, rfl⟩
      · exact hall r h

/-! ### Claims C1, C2, C9: range validation of `POST /api/generate` -/

/-- C1 (amended): for every request whose `seed` and `batch_index`
values convert via `int()` and whose integer `batch_size` is outside
[1,100], the handler returns 400 with the batch-size error message
("Batch size must be between 1 and 100"), regardless of `locale`, of
the oracle, and of the converted `seed`/`batch_index` values.  (The
original claim, quantified over arbitrary other parameters, fails: a
non-integer-convertible `seed` raises before validation and yields
500.) -/
theorem C1_thm (gen : GenOracle) (now : String)
    (data : List (String × PyVal)) (s bi bs : ℤ)
    (hs : pyInt (pyGet data "seed" (.vint 12345)) = .ok s)
    (hbi : pyInt (pyGet data "batch_index" (.vint 0)) = .ok bi)
    (hbs : pyGet data "batch_size" (.vint 10) = .vint bs)
    (hout : bs < 1 ∨ bs > 100) :
    api_generate gen now data = .clientError batchSizeMsg ∧
    (api_generate gen now data).statusCode = 400 := by
  have hbs2 : pyInt (pyGet data "batch_size" (.vint 10)) = .ok bs := by
    rw [hbs]; rfl
  have h1 : api_generate gen now data = .clientError batchSizeMsg := by
    unfold api_generate
    rw [tryBody_400_batch hs hbi hbs2 hout]
  exact ⟨h1, by rw [h1]; rfl⟩

/-- C1 witness: a request with `batch_size = 0` and no other fields is
rejected with the batch-size 400. -/
theorem C1_witness :
    api_generate (fun _ _ _ _ => .ok []) "2024-01-01T00:00:00"
        [("batch_size", PyVal.vint 0)] = .clientError batchSizeMsg ∧
    (api_generate (fun _ _ _ _ => .ok []) "2024-01-01T00:00:00"
        [("batch_size", PyVal.vint 0)]).statusCode = 400 :=
  C1_thm _ _ _ 12345 0 0 rfl rfl rfl (Or.inl (by decide))

/-- C1 counterexample: with `batch_size = 0` (an integer outside
[1,100]) but `seed = "abc"`, the `int()` conversion of `seed` raises
before validation, so the response is a 500, not the claimed 400. -/
theorem C1_cex :
    api_generate (fun _ _ _ _ => .ok []) "T"
        [("batch_size", PyVal.vint 0), ("seed", PyVal.vstr "abc")] =
      .serverError "invalid literal for int() with base 10: \x27abc\x27" ∧
    (api_generate (fun _ _ _ _ => .ok []) "T"
        [("batch_size", PyVal.vint 0), ("seed", PyVal.vstr "abc")]).statusCode ≠ 400 := by
  constructor
  · rfl
  · decide

/-- C2 (amended): for every request whose integer `seed` is outside
[0, 2147483647], whose `batch_index` value converts via `int()`, and
whose `batch_size` converts to an integer within [1,100], the handler
returns 400 with the seed error message ("Seed must be between 0 and
2147483647").  (The original claim, with `batch_index` unconstrained,
fails: a non-integer-convertible `batch_index` raises before validation
and yields 500.) -/
theorem C2_thm (gen : GenOracle) (now : String)
    (data : List (String × PyVal)) (s bi bs : ℤ)
    (hseed : pyGet data "seed" (.vint 12345) = .vint s)
    (hsout : s < 0 ∨ s > 2147483647)
    (hbi : pyInt (pyGet data "batch_index" (.vint 0)) = .ok bi)
    (hbs : pyInt (pyGet data "batch_size" (.vint 10)) = .ok bs)
    (hbsin : 1 ≤ bs ∧ bs ≤ 100) :
    api_generate gen now data = .clientError seedMsg ∧
    (api_generate gen now data).statusCode = 400 := by
  have hs2 : pyInt (pyGet data "seed" (.vint 12345)) = .ok s := by
    rw [hseed]; rfl
  have hin : ¬(bs < 1 ∨ bs > 100) := by omega
  have h1 : api_generate gen now data = .clientError seedMsg := by
    unfold api_generate
    rw [tryBody_400_seed hs2 hbi hbs hin hsout]
  exact ⟨h1, by rw [h1]; rfl⟩

/-- C2 witness: a request with `seed = -1` and `batch_size = 10` is
rejected with the seed 400. -/
theorem C2_witness :
    api_generate (fun _ _ _ _ => .ok []) "T"
        [("seed", PyVal.vint (-1))] = .clientError seedMsg ∧
    (api_generate (fun _ _ _ _ => .ok []) "T"
        [("seed", PyVal.vint (-1))]).statusCode = 400 :=
  C2_thm _ _ _ (-1) 0 10 rfl (Or.inl (by decide)) rfl rfl (by decide)

/-- C2 counterexample: with `seed = -1` (outside the range) and
`batch_size = 10` (within [1,100]) but `batch_index = "abc"`, the
`int()` conversion of `batch_index` raises before validation, so the
response is a 500, not the claimed 400. -/
theorem C2_cex :
    api_generate (fun _ _ _ _ => .ok []) "T"
        [("seed", PyVal.vint (-1)), ("batch_size", PyVal.vint 10),
         ("batch_index", PyVal.vstr "abc")] =
      .serverError "invalid literal for int() with base 10: \x27abc\x27" ∧
    (api_generate (fun _ _ _ _ => .ok []) "T"
        [("seed", PyVal.vint (-1)), ("batch_size", PyVal.vint 10),
         ("batch_index", PyVal.vstr "abc")]).statusCode ≠ 400 := by
  constructor
  · rfl
  · decide

/-- C9 (amended): when both the integer `batch_size` and the integer
`seed` are out of range (and `batch_index` converts via `int()`), the
response is the batch-size 400 — batch size is validated first — and
its message is not the seed message.  (The original claim, with
`batch_index` unconstrained, fails: a non-integer-convertible
`batch_index` raises before validation and yields 500.) -/
theorem C9_thm (gen : GenOracle) (now : String)
    (data : List (String × PyVal)) (s bi bs : ℤ)
    (hseed : pyGet data "seed" (.vint 12345) = .vint s)
    (hbs : pyGet data "batch_size" (.vint 10) = .vint bs)
    (hbi : pyInt (pyGet data "batch_index" (.vint 0)) = .ok bi)
    (_hsout : s < 0 ∨ s > 2147483647)
    (hbsout : bs < 1 ∨ bs > 100) :
    api_generate gen now data = .clientError batchSizeMsg ∧
    api_generate gen now data ≠ .clientError seedMsg ∧
    (api_generate gen now data).statusCode = 400 := by
  have hs2 : pyInt (pyGet data "seed" (.vint 12345)) = .ok s := by
    rw [hseed]; rfl
  have hbs2 : pyInt (pyGet data "batch_size" (.vint 10)) = .ok bs := by
    rw [hbs]; rfl
  have h1 : api_generate gen now data = .clientError batchSizeMsg := by
    unfold api_generate
    rw [tryBody_400_batch hs2 hbi hbs2 hbsout]
  refine ⟨h1, ?_, by rw [h1]; rfl⟩
  rw [h1]
  intro hcontra
  have : batchSizeMsg = seedMsg := by injection hcontra
  exact absurd this (by decide)

/-- C9 witness: `seed = -1` and `batch_size = 0` together produce the
batch-size 400, not the seed 400. -/
theorem C9_witness :
    api_generate (fun _ _ _ _ => .ok []) "T"
        [("seed", PyVal.vint (-1)), ("batch_size", PyVal.vint 0)] =
      .clientError batchSizeMsg ∧
    api_generate (fun _ _ _ _ => .ok []) "T"
        [("seed", PyVal.vint (-1)), ("batch_size", PyVal.vint 0)] ≠
      .clientError seedMsg ∧
    (api_generate (fun _ _ _ _ => .ok []) "T"
        [("seed", PyVal.vint (-1)), ("batch_size", PyVal.vint 0)]).statusCode = 400 :=
  C9_thm _ _ _ (-1) 0 0 rfl rfl rfl (Or.inl (by decide)) (Or.inl (by decide))

/-- C9 counterexample: with `seed = -1` and `batch_size = 0` both out
of range but `batch_index = "abc"`, the `int()` conversion of
`batch_index` raises before either validation, so the response is a
500, not the claimed batch-size 400. -/
theorem C9_cex :
    api_generate (fun _ _ _ _ => .ok []) "T"
        [("seed", PyVal.vint (-1)), ("batch_size", PyVal.vint 0),
         ("batch_index", PyVal.vstr "abc")] =
      .serverError "invalid literal for int() with base 10: \x27abc\x27" ∧
    api_generate (fun _ _ _ _ => .ok []) "T"
        [("seed", PyVal.vint (-1)), ("batch_size", PyVal.vint 0),
         ("batch_index", PyVal.vstr "abc")] ≠ .clientError batchSizeMsg := by
  constructor
  · rfl
  · decide

/-! ### Claim C5: validation failures never touch the database -/

/-- C5: a request that fails range validation (all three integer
parameters convert, and batch size or seed is out of range) gets a 400
response that is identical for every stored-procedure oracle — the
handler's result does not depend on the database at all, i.e. no
connection is opened and no procedure is invoked — and its status is
400. -/
theorem C5_thm (now : String) (data : List (String × PyVal)) (s bi bs : ℤ)
    (hs : pyInt (pyGet data "seed" (.vint 12345)) = .ok s)
    (hbi : pyInt (pyGet data "batch_index" (.vint 0)) = .ok bi)
    (hbs : pyInt (pyGet data "batch_size" (.vint 10)) = .ok bs)
    (hout : (bs < 1 ∨ bs > 100) ∨ (s < 0 ∨ s > 2147483647)) :
    ∀ gen gen' : GenOracle,
      api_generate gen now data = api_generate gen' now data ∧
      (api_generate gen now data).statusCode = 400 := by
  intro gen gen'
  by_cases hb : bs < 1 ∨ bs > 100
  · have h1 : api_generate gen now data = .clientError batchSizeMsg := by
      unfold api_generate
      rw [tryBody_400_batch hs hbi hbs hb]
    have h2 : api_generate gen' now data = .clientError batchSizeMsg := by
      unfold api_generate
      rw [tryBody_400_batch hs hbi hbs hb]
    exact ⟨h1.trans h2.symm, by rw [h1]; rfl⟩
  · have hse : s < 0 ∨ s > 2147483647 := hout.resolve_left hb
    have h1 : api_generate gen now data = .clientError seedMsg := by
      unfold api_generate
      rw [tryBody_400_seed hs hbi hbs hb hse]
    have h2 : api_generate gen' now data = .clientError seedMsg := by
      unfold api_generate
      rw [tryBody_400_seed hs hbi hbs hb hse]
    exact ⟨h1.trans h2.symm, by rw [h1]; rfl⟩

/-- C5 witness: for `batch_size = 101`, an oracle that would succeed
and an oracle that would raise a database error produce the same 400
response. -/
theorem C5_witness :
    api_generate (fun _ _ _ _ => .ok []) "T" [("batch_size", PyVal.vint 101)] =
      api_generate (fun _ _ _ _ => .error "connection refused") "T"
        [("batch_size", PyVal.vint 101)] ∧
    (api_generate (fun _ _ _ _ => .ok []) "T"
        [("batch_size", PyVal.vint 101)]).statusCode = 400 :=
  C5_thm "T" [("batch_size", PyVal.vint 101)] 12345 0 101 rfl rfl rfl
    (Or.inl (Or.inr (by decide))) _ _

/-! ### Claim C4: everything else is a 500 with the exception text -/

/-- C4: for every request, either an exception escapes the `try:` body
and the response is exactly 500 with the exception's string
representation as the `error` field, or no exception escapes and the
response is one of exactly three shapes: the batch-size 400, the seed
400, or the 200 success body (with the echoed locale and the server
timestamp).  So every failure other than the two explicit validations —
database errors, non-integer parameters, missing coordinate keys — is
reported as a 500 carrying `str(e)`. -/
theorem C4_thm (gen : GenOracle) (now : String)
    (data : List (String × PyVal)) :
    (∃ e, tryBody gen now data = .error e ∧
      api_generate gen now data = .serverError e ∧
      (api_generate gen now data).statusCode = 500) ∨
    (∃ r, tryBody gen now data = .ok r ∧ api_generate gen now data = r ∧
      (r = .clientError batchSizeMsg ∨ r = .clientError seedMsg ∨
       ∃ users2 s bi bs,
         r = .success users2 (pyGet data "locale" (.vstr "en_US")) s bi bs now)) := by
  cases hs : pyInt (pyGet data "seed" (.vint 12345)) with
  | error e =>
    exact Or.inl ⟨e, tryBody_seed_err hs,
      by unfold api_generate; rw [tryBody_seed_err hs], by
        unfold api_generate; rw [tryBody_seed_err hs]; rfl⟩
  | ok s =>
    cases hbi : pyInt (pyGet data "batch_index" (.vint 0)) with
    | error e =>
      exact Or.inl ⟨e, tryBody_batch_index_err hs hbi,
        by unfold api_generate; rw [tryBody_batch_index_err hs hbi], by
          unfold api_generate; rw [tryBody_batch_index_err hs hbi]; rfl⟩
    | ok bi =>
      cases hbs : pyInt (pyGet data "batch_size" (.vint 10)) with
      | error e =>
        exact Or.inl ⟨e, tryBody_batch_size_err hs hbi hbs,
          by unfold api_generate; rw [tryBody_batch_size_err hs hbi hbs], by
            unfold api_generate; rw [tryBody_batch_size_err hs hbi hbs]; rfl⟩
      | ok bs =>
        by_cases hb : bs < 1 ∨ bs > 100
        · exact Or.inr ⟨.clientError batchSizeMsg,
            tryBody_400_batch hs hbi hbs hb,
            by unfold api_generate; rw [tryBody_400_batch hs hbi hbs hb],
            Or.inl rfl⟩
        · by_cases hse : s < 0 ∨ s > 2147483647
          · exact Or.inr ⟨.clientError seedMsg,
              tryBody_400_seed hs hbi hbs hb hse,
              by unfold api_generate; rw [tryBody_400_seed hs hbi hbs hb hse],
              Or.inr (Or.inl rfl)⟩
          · have hv := @tryBody_valid gen now data s bi bs hs hbi hbs hb hse
            cases hgen : gen (pyGet data "locale" (.vstr "en_US")) s bi bs with
            | error e =>
              rw [hgen] at hv
              exact Or.inl ⟨e, hv, by unfold api_generate; rw [hv], by
                unfold api_generate; rw [hv]; rfl⟩
            | ok users =>
              rw [hgen] at hv
              have hv2 : tryBody gen now data =
                  (match roundAll users with
                   | .error e => .error e
                   | .ok users2 =>
                     .ok (.success users2
                       (pyGet data "locale" (.vstr "en_US")) s bi bs now)) := hv
              cases hra : roundAll users with
              | error e =>
                rw [hra] at hv2
                exact Or.inl ⟨e, hv2, by unfold api_generate; rw [hv2], by
                  unfold api_generate; rw [hv2]; rfl⟩
              | ok users2 =>
                rw [hra] at hv2
                exact Or.inr ⟨_, hv2, by unfold api_generate; rw [hv2],
                  Or.inr (Or.inr ⟨users2, s, bi, bs, rfl⟩)⟩

/-! ### Further characterization lemmas for the valid-request path -/

theorem tryBody_gen_err {gen : GenOracle} {now : String}
    {data : List (String × PyVal)} {s bi bs : ℤ} {e : String}
    (hs : pyInt (pyGet data "seed" (.vint 12345)) = .ok s)
    (hbi : pyInt (pyGet data "batch_index" (.vint 0)) = .ok bi)
    (hbs : pyInt (pyGet data "batch_size" (.vint 10)) = .ok bs)
    (hbsin : ¬(bs < 1 ∨ bs > 100))
    (hsin : ¬(s < 0 ∨ s > 2147483647))
    (hgen : gen (pyGet data "locale" (.vstr "en_US")) s bi bs = .error e) :
    tryBody gen now data = .error e := by
  simp [tryBody, hs, hbi, hbs, hbsin, hsin, hgen]

theorem tryBody_round_err {gen : GenOracle} {now : String}
    {data : List (String × PyVal)} {s bi bs : ℤ} {e : String}
    {users : List PyUser}
    (hs : pyInt (pyGet data "seed" (.vint 12345)) = .ok s)
    (hbi : pyInt (pyGet data "batch_index" (.vint 0)) = .ok bi)
    (hbs : pyInt (pyGet data "batch_size" (.vint 10)) = .ok bs)
    (hbsin : ¬(bs < 1 ∨ bs > 100))
    (hsin : ¬(s < 0 ∨ s > 2147483647))
    (hgen : gen (pyGet data "locale" (.vstr "en_US")) s bi bs = .ok users)
    (hround : roundAll users = .error e) :
    tryBody gen now data = .error e := by
  simp [tryBody, hs, hbi, hbs, hbsin, hsin, hgen, hround]

theorem tryBody_200 {gen : GenOracle} {now : String}
    {data : List (String × PyVal)} {s bi bs : ℤ}
    {users users2 : List PyUser}
    (hs : pyInt (pyGet data "seed" (.vint 12345)) = .ok s)
    (hbi : pyInt (pyGet data "batch_index" (.vint 0)) = .ok bi)
    (hbs : pyInt (pyGet data "batch_size" (.vint 10)) = .ok bs)
    (hbsin : ¬(bs < 1 ∨ bs > 100))
    (hsin : ¬(s < 0 ∨ s > 2147483647))
    (hgen : gen (pyGet data "locale" (.vstr "en_US")) s bi bs = .ok users)
    (hround : roundAll users = .ok users2) :
    tryBody gen now data =
      .ok (.success users2 (pyGet data "locale" (.vstr "en_US")) s bi bs now) := by
  simp [tryBody, hs, hbi, hbs, hbsin, hsin, hgen, hround]

/-! ### Claim C8: defaults of the optional request fields -/

/-- C8: each omitted optional field takes its documented default —
`locale` becomes `"en_US"`, `seed` converts to 12345, `batch_index` to
0, `batch_size` to 10 — and when all four are omitted these defaults
pass validation, are the exact arguments the stored procedure is
invoked with, and are echoed in the 200 response (the default seed and
batch size being in range). -/
theorem C8_thm (gen : GenOracle) (now : String)
    (data : List (String × PyVal)) :
    (pyLookup "locale" data = none →
      pyGet data "locale" (.vstr "en_US") = .vstr "en_US") ∧
    (pyLookup "seed" data = none →
      pyInt (pyGet data "seed" (.vint 12345)) = .ok 12345) ∧
    (pyLookup "batch_index" data = none →
      pyInt (pyGet data "batch_index" (.vint 0)) = .ok 0) ∧
    (pyLookup "batch_size" data = none →
      pyInt (pyGet data "batch_size" (.vint 10)) = .ok 10) ∧
    (pyLookup "locale" data = none → pyLookup "seed" data = none →
     pyLookup "batch_index" data = none → pyLookup "batch_size" data = none →
      (∀ e, gen (.vstr "en_US") 12345 0 10 = .error e →
        api_generate gen now data = .serverError e) ∧
      (∀ users users2, gen (.vstr "en_US") 12345 0 10 = .ok users →
        roundAll users = .ok users2 →
        api_generate gen now data =
          .success users2 (.vstr "en_US") 12345 0 10 now)) := by
  refine ⟨fun h => by simp [pyGet, h], fun h => by simp [pyGet, h, pyInt],
    fun h => by simp [pyGet, h, pyInt], fun h => by simp [pyGet, h, pyInt], ?_⟩
  intro hl hsd hbix hbsz
  have hloc : pyGet data "locale" (.vstr "en_US") = .vstr "en_US" := by
    simp [pyGet, hl]
  have hs2 : pyInt (pyGet data "seed" (.vint 12345)) = .ok 12345 := by
    simp [pyGet, hsd, pyInt]
  have hbi2 : pyInt (pyGet data "batch_index" (.vint 0)) = .ok 0 := by
    simp [pyGet, hbix, pyInt]
  have hbs2 : pyInt (pyGet data "batch_size" (.vint 10)) = .ok 10 := by
    simp [pyGet, hbsz, pyInt]
  have hb : ¬((10 : ℤ) < 1 ∨ (10 : ℤ) > 100) := by decide
  have hse : ¬((12345 : ℤ) < 0 ∨ (12345 : ℤ) > 2147483647) := by decide
  constructor
  · intro e hgen
    have hgen2 : gen (pyGet data "locale" (.vstr "en_US")) 12345 0 10 =
        .error e := by rw [hloc]; exact hgen
    unfold api_generate
    rw [tryBody_gen_err hs2 hbi2 hbs2 hb hse hgen2]
  · intro users users2 hgen hround
    have hgen2 : gen (pyGet data "locale" (.vstr "en_US")) 12345 0 10 =
        .ok users := by rw [hloc]; exact hgen
    unfold api_generate
    rw [tryBody_200 hs2 hbi2 hbs2 hb hse hgen2 hround, hloc]

/-- C8 witness: a body with only an unrelated field gets all four
defaults and a 200 echoing them. -/
theorem C8_witness :
    pyGet [("x", PyVal.vnull)] "locale" (.vstr "en_US") = .vstr "en_US" ∧
    pyInt (pyGet [("x", PyVal.vnull)] "seed" (.vint 12345)) = .ok 12345 ∧
    pyInt (pyGet [("x", PyVal.vnull)] "batch_index" (.vint 0)) = .ok 0 ∧
    pyInt (pyGet [("x", PyVal.vnull)] "batch_size" (.vint 10)) = .ok 10 ∧
    api_generate (fun _ _ _ _ => .ok []) "T" [("x", PyVal.vnull)] =
      .success [] (.vstr "en_US") 12345 0 10 "T" := by
  have h := C8_thm (fun _ _ _ _ => .ok []) "T" [("x", PyVal.vnull)]
  exact ⟨h.1 rfl, h.2.1 rfl, h.2.2.1 rfl, h.2.2.2.1 rfl,
    (h.2.2.2.2 rfl rfl rfl rfl).2 [] [] rfl rfl⟩

/-! ### Claim C3: the success path of `POST /api/generate` -/

/-- C3 (amended): for a request whose three integer parameters convert
and are in range, when the stored-procedure call succeeds AND the
rounding loop succeeds on the returned records (every record carries
roundable latitude/longitude values), the handler returns 200 with the
rounded user list, the echoed `locale`, `seed`, `batch_index` and
`batch_size`, and the server-side timestamp taken at response
construction; each user's float latitude/longitude is rounded with
`round6`.  (The original claim, conditioned only on the generation call
succeeding, fails: a returned record without a latitude key makes the
rounding loop raise and the response is a 500.) -/
theorem C3_thm (gen : GenOracle) (now : String)
    (data : List (String × PyVal)) (s bi bs : ℤ)
    (users users2 : List PyUser)
    (hs : pyInt (pyGet data "seed" (.vint 12345)) = .ok s)
    (hbi : pyInt (pyGet data "batch_index" (.vint 0)) = .ok bi)
    (hbs : pyInt (pyGet data "batch_size" (.vint 10)) = .ok bs)
    (hbsin : 1 ≤ bs ∧ bs ≤ 100)
    (hsin : 0 ≤ s ∧ s ≤ 2147483647)
    (hgen : gen (pyGet data "locale" (.vstr "en_US")) s bi bs = .ok users)
    (hround : roundAll users = .ok users2) :
    api_generate gen now data =
      .success users2 (pyGet data "locale" (.vstr "en_US")) s bi bs now ∧
    (api_generate gen now data).statusCode = 200 ∧
    users2.length = users.length ∧
    (∀ i (h1 : i < users.length) (h2 : i < users2.length) (q : ℚ),
      (pyLookup "latitude" (users.get ⟨i, h1⟩) = some (.vfloat q) →
        pyLookup "latitude" (users2.get ⟨i, h2⟩) = some (.vfloat (round6 q))) ∧
      (pyLookup "longitude" (users.get ⟨i, h1⟩) = some (.vfloat q) →
        pyLookup "longitude" (users2.get ⟨i, h2⟩) = some (.vfloat (round6 q)))) := by
  have hb : ¬(bs < 1 ∨ bs > 100) := by omega
  have hse : ¬(s < 0 ∨ s > 2147483647) := by omega
  have h1 : api_generate gen now data =
      .success users2 (pyGet data "locale" (.vstr "en_US")) s bi bs now := by
    unfold api_generate
    rw [tryBody_200 hs hbi hbs hb hse hgen hround]
  refine ⟨h1, by rw [h1]; rfl, roundAll_length hround, ?_⟩
  intro i hi1 hi2 q
  exact ⟨fun hq => roundUser_latitude (roundAll_get hround i hi1 hi2) hq,
    fun hq => roundUser_longitude (roundAll_get hround i hi1 hi2) hq⟩

/-- C3 witness: a request with explicit in-range parameters and an
oracle returning one user with integer coordinates yields the 200
success body echoing the parameters. -/
theorem C3_witness :
    api_generate
        (fun _ _ _ _ => .ok [[("latitude", PyVal.vint 1),
                              ("longitude", PyVal.vint 2)]])
        "T" [("seed", PyVal.vint 42), ("batch_size", PyVal.vint 5)] =
      .success [[("latitude", PyVal.vint 1), ("longitude", PyVal.vint 2)]]
        (.vstr "en_US") 42 0 5 "T" :=
  (C3_thm (fun _ _ _ _ => .ok [[("latitude", PyVal.vint 1),
        ("longitude", PyVal.vint 2)]])
    "T" [("seed", PyVal.vint 42), ("batch_size", PyVal.vint 5)] 42 0 5
    [[("latitude", PyVal.vint 1), ("longitude", PyVal.vint 2)]]
    [[("latitude", PyVal.vint 1), ("longitude", PyVal.vint 2)]]
    rfl rfl rfl (by decide) (by decide) rfl rfl).1

/-- C3 counterexample: with default (valid) parameters and a generation
call that SUCCEEDS but returns a record without latitude/longitude
fields, the handler returns 500 (`KeyError` on `latitude`), not the
claimed 200. -/
theorem C3_cex :
    api_generate (fun _ _ _ _ => .ok [[("name", PyVal.vstr "x")]]) "T" [] =
      .serverError "\x27latitude\x27" ∧
    (api_generate (fun _ _ _ _ => .ok [[("name", PyVal.vstr "x")]])
        "T" []).statusCode ≠ 200 := by
  constructor
  · rfl
  · decide

/-! ### Claim C10: latitude/longitude are effectively mandatory -/

/-- C10: for a validated request whose stored-procedure call returns a
record missing the `latitude` or the `longitude` key, the rounding
loop's key lookup raises, the catch-all converts it, and the handler
returns a 500 — so the two coordinate fields are mandatory in every
returned record. -/
theorem C10_thm (gen : GenOracle) (now : String)
    (data : List (String × PyVal)) (s bi bs : ℤ)
    (users : List PyUser) (u : PyUser)
    (hs : pyInt (pyGet data "seed" (.vint 12345)) = .ok s)
    (hbi : pyInt (pyGet data "batch_index" (.vint 0)) = .ok bi)
    (hbs : pyInt (pyGet data "batch_size" (.vint 10)) = .ok bs)
    (hbsin : 1 ≤ bs ∧ bs ≤ 100)
    (hsin : 0 ≤ s ∧ s ≤ 2147483647)
    (hgen : gen (pyGet data "locale" (.vstr "en_US")) s bi bs = .ok users)
    (hmem : u ∈ users)
    (hmiss : pyLookup "latitude" u = none ∨ pyLookup "longitude" u = none) :
    ∃ e, api_generate gen now data = .serverError e ∧
      (api_generate gen now data).statusCode = 500 := by
  have hb : ¬(bs < 1 ∨ bs > 100) := by omega
  have hse : ¬(s < 0 ∨ s > 2147483647) := by omega
  have hu : ∃ e0, roundUser u = .error e0 := by
    rcases hmiss with h | h
    · exact ⟨_, roundUser_err_no_lat h⟩
    · exact roundUser_err_no_lon h
  rcases hu with ⟨e0, he0⟩
  rcases roundAll_error_of_mem hmem he0 with ⟨e2, he2⟩
  have h1 : api_generate gen now data = .serverError e2 := by
    unfold api_generate
    rw [tryBody_round_err hs hbi hbs hb hse hgen he2]
  exact ⟨e2, h1, by rw [h1]; rfl⟩

/-- C10 witness: a generated record carrying only a longitude produces
a 500. -/
theorem C10_witness :
    ∃ e, api_generate (fun _ _ _ _ => .ok [[("longitude", PyVal.vint 2)]])
        "T" [] = .serverError e ∧
      (api_generate (fun _ _ _ _ => .ok [[("longitude", PyVal.vint 2)]])
        "T" []).statusCode = 500 :=
  C10_thm _ _ _ 12345 0 10 [[("longitude", PyVal.vint 2)]]
    [("longitude", PyVal.vint 2)] rfl rfl rfl (by decide) (by decide) rfl
    (by simp) (Or.inl rfl)

/-! ### Claim C6: the health check -/

/-- C6: `GET /health` opens a connection and runs `SELECT 1` (the two
oracle steps of `HealthEnv`); when both succeed it answers 200 with the
healthy body, and when either step raises it answers 500 with the
unhealthy body carrying the exception's message. -/
theorem C6_thm (env : HealthEnv) :
    (env.connect = .ok () → env.selectOne = .ok () →
      health env = .healthy ∧ (health env).statusCode = 200) ∧
    (∀ e, env.connect = .error e →
      health env = .unhealthy e ∧ (health env).statusCode = 500) ∧
    (∀ e, env.connect = .ok () → env.selectOne = .error e →
      health env = .unhealthy e ∧ (health env).statusCode = 500) := by
  refine ⟨fun h1 h2 => ?_, fun e h1 => ?_, fun e h1 h2 => ?_⟩
  · have h : health env = .healthy := by simp [health, h1, h2]
    exact ⟨h, by rw [h]; rfl⟩
  · have h : health env = .unhealthy e := by simp [health, h1]
    exact ⟨h, by rw [h]; rfl⟩
  · have h : health env = .unhealthy e := by simp [health, h1, h2]
    exact ⟨h, by rw [h]; rfl⟩

/-- C6 witness: a working database yields the healthy 200, and a failed
connection yields the unhealthy 500 with the exception text. -/
theorem C6_witness :
    (health ⟨.ok (), .ok ()⟩ = .healthy ∧
      (health ⟨.ok (), .ok ()⟩).statusCode = 200) ∧
    (health ⟨.error "connection refused", .ok ()⟩ =
        .unhealthy "connection refused" ∧
      (health ⟨.error "connection refused", .ok ()⟩).statusCode = 500) :=
  ⟨(C6_thm ⟨.ok (), .ok ()⟩).1 rfl rfl,
   (C6_thm ⟨.error "connection refused", .ok ()⟩).2.1 "connection refused" rfl⟩

/-! ### Claim C7: the benchmark driver -/

/-- C7 (amended): when the connection opens, every generation call
completes, and the clock is strictly increasing (so no elapsed time is
zero), `run_benchmark` returns one `(count, elapsed, throughput)` tuple
per batch size, in input order, with each elapsed non-negative and each
throughput equal to count divided by elapsed.  (The original claim,
with no condition on the measured times, fails: an elapsed time of
exactly zero makes `count / elapsed` raise `ZeroDivisionError`, so no
result list is returned.) -/
theorem C7_thm (connect : Except String Unit)
    (ex : String → ℤ → ℕ → Except String Unit) (clock : ℕ → ℚ)
    (counts : List ℕ) (locale : String) (seed : ℤ)
    (hconn : connect = .ok ())
    (hex : ∀ c ∈ counts, ex locale seed c = .ok ())
    (hclock : StrictMono clock) :
    ∃ res, run_benchmark connect ex clock counts locale seed = .ok res ∧
      res.map (fun r => r.1) = counts ∧
      ∀ r ∈ res, 0 ≤ r.2.1 ∧ r.2.2 = (r.1 : ℚ) / r.2.1 := by
  rcases benchLoop_ok ex clock locale seed counts 0 hex hclock with
    ⟨res, hres, hmap, hall⟩
  subst hconn
  exact ⟨res, hres, hmap, hall⟩

/-- C7 witness: two batch sizes against an immediately-returning
procedure and a unit-step clock give two tuples in order with positive
elapsed and throughput count/elapsed. -/
theorem C7_witness :
    ∃ res, run_benchmark (.ok ()) (fun _ _ _ => .ok ())
        (fun n => (n : ℚ)) [10000, 50000] "en_US" 12345 = .ok res ∧
      res.map (fun r => r.1) = [10000, 50000] ∧
      ∀ r ∈ res, 0 ≤ r.2.1 ∧ r.2.2 = (r.1 : ℚ) / r.2.1 :=
  C7_thm (.ok ()) (fun _ _ _ => .ok ()) (fun n => (n : ℚ))
    [10000, 50000] "en_US" 12345 rfl (fun _ _ => rfl) Nat.strictMono_cast

/-- C7 counterexample: with every generation call completing but two
equal consecutive clock readings, the elapsed time is zero and the
throughput division raises `ZeroDivisionError`: `run_benchmark`
propagates the exception and returns no result tuples at all, contrary
to the claim of one tuple per batch size. -/
theorem C7_cex :
    run_benchmark (.ok ()) (fun _ _ _ => .ok ()) (fun _ => 0)
      [10000] "en_US" 12345 = .error "float division by zero" := by
  norm_num [run_benchmark, benchLoop, pyDiv]
